import Mathlib

/-!
Verification of the MyModule boilerplate (src/src/MyModule/__init__.py).

The module exposes a greeting function `hello_world` and a `Calculator`
class with four static arithmetic operations.  Numeric operands are
modelled as rationals (the spec's "real numbers"; every concrete value
appearing in the code, spec and tests is rational), and the fallible
`divide` operation returns `Except String`, the error carrying the
raised message.  A second, dynamically typed model (`PyNum`,
`PyCalculator`) distinguishes Python `int` and `float` values to capture
the int/float behaviour of the operations.
-/

/-- `hello_world(name: str = "World") -> str`:
returns `f"Hello, {name}!"`. -/
def hello_world (name : String := "World") : String :=
  "Hello, " ++ name ++ "!"

namespace Calculator

/-- `Calculator.add`: `return a + b`. -/
def add (a b : ℚ) : ℚ := a + b

/-- `Calculator.subtract`: `return a - b`. -/
def subtract (a b : ℚ) : ℚ := a - b

/-- `Calculator.multiply`: `return a * b`. -/
def multiply (a b : ℚ) : ℚ := a * b

/-- `Calculator.divide`: raises `ValueError("Cannot divide by zero")`
when `b == 0`, otherwise `return a / b`. -/
def divide (a b : ℚ) : Except String ℚ :=
  if b = 0 then Except.error "Cannot divide by zero"
  else Except.ok (a / b)

end Calculator

/-- A Python numeric value as passed to the Calculator operations:
either an `int` or a `float` (the float's numeric value, which is
rational for every finite float). -/
inductive PyNum where
  | int : Int → PyNum
  | float : ℚ → PyNum
deriving DecidableEq

/-- The numeric value of a Python number (what `==` compares). -/
def PyNum.val : PyNum → ℚ
  | .int n => (n : ℚ)
  | .float q => q

namespace PyCalculator

/-- `Calculator.add` at the level of Python values: `a + b` stays an
`int` when both operands are `int`, otherwise produces a `float`. -/
def add : PyNum → PyNum → PyNum
  | .int m, .int n => .int (m + n)
  | a, b => .float (a.val + b.val)

/-- `Calculator.subtract` at the level of Python values. -/
def subtract : PyNum → PyNum → PyNum
  | .int m, .int n => .int (m - n)
  | a, b => .float (a.val - b.val)

/-- `Calculator.multiply` at the level of Python values. -/
def multiply : PyNum → PyNum → PyNum
  | .int m, .int n => .int (m * n)
  | a, b => .float (a.val * b.val)

/-- `Calculator.divide` at the level of Python values: the guard
`b == 0` compares numeric values; Python's true division `a / b`
always produces a `float`. -/
def divide (a b : PyNum) : Except String PyNum :=
  if b.val = 0 then Except.error "Cannot divide by zero"
  else Except.ok (.float (a.val / b.val))

end PyCalculator

/-- Claim C1: for every operand `a`, `divide a 0` fails with the error
carrying the fixed message "Cannot divide by zero", and `divide a b`
raises an error if and only if the divisor `b` equals zero. -/
theorem divide_error_iff_zero (a b : ℚ) :
    Calculator.divide a 0 = Except.error "Cannot divide by zero" ∧
    ((∃ e, Calculator.divide a b = Except.error e) ↔ b = 0) := by
  refine ⟨by simp [Calculator.divide], ?_, fun hb => ?_⟩
  · rintro ⟨e, he⟩
    by_contra hb
    simp [Calculator.divide, hb] at he
  · exact ⟨"Cannot divide by zero", by simp [Calculator.divide, hb]⟩

/-- Claim C2: for every `a` and every `b ≠ 0`, `divide a b` returns the
exact quotient `a / b`; in particular `divide 10 2 = 5` and
`divide 7 2 = 3.5`. -/
theorem divide_returns_quotient (a b : ℚ) (hb : b ≠ 0) :
    Calculator.divide a b = Except.ok (a / b) ∧
    Calculator.divide 10 2 = Except.ok 5 ∧
    Calculator.divide 7 2 = Except.ok 3.5 := by
  refine ⟨by simp [Calculator.divide, hb], ?_, ?_⟩ <;>
    · simp only [Calculator.divide]
      norm_num

/-- Claim C2 witness: the quotient theorem applied at `a = 9`, `b = 4`. -/
theorem divide_returns_quotient_witness :
    Calculator.divide 9 4 = Except.ok (9 / 4 : ℚ) :=
  (divide_returns_quotient 9 4 (by norm_num)).1

/-- Claim C3: for all operands `a` and `b`, `add a b = a + b`,
`subtract a b = a - b` and `multiply a b = a * b`. -/
theorem arith_ops_exact (a b : ℚ) :
    Calculator.add a b = a + b ∧
    Calculator.subtract a b = a - b ∧
    Calculator.multiply a b = a * b :=
  ⟨rfl, rfl, rfl⟩

/-- Claim C4: `hello_world name` is the concatenation
`"Hello, " ++ name ++ "!"` with no validation of content (so the empty
string gives `"Hello, !"`), and with the argument omitted the name
defaults to `"World"`, giving `"Hello, World!"`. -/
theorem greet_format :
    (∀ name : String, hello_world name = "Hello, " ++ name ++ "!") ∧
    hello_world "" = "Hello, !" ∧
    hello_world = "Hello, World!" :=
  ⟨fun _ => rfl, rfl, rfl⟩

/-- Claim C5: `add`, `subtract` and `multiply` are total over all pairs
of numeric operands: each returns a value and has no error branch. -/
theorem arith_ops_total (a b : ℚ) :
    (∃ r : ℚ, Calculator.add a b = r) ∧
    (∃ r : ℚ, Calculator.subtract a b = r) ∧
    (∃ r : ℚ, Calculator.multiply a b = r) :=
  ⟨⟨_, rfl⟩, ⟨_, rfl⟩, ⟨_, rfl⟩⟩

/-- Claim C6: the zero test on the divisor is performed before the
division, so for `b = 0` the result is the division-by-zero error (the
quotient is never produced), and no error with a message other than
"Cannot divide by zero" can escape `divide`. -/
theorem divide_zero_checked_first (a b : ℚ) :
    Calculator.divide a 0 = Except.error "Cannot divide by zero" ∧
    (∀ e, Calculator.divide a b = Except.error e →
      e = "Cannot divide by zero") := by
  refine ⟨by simp [Calculator.divide], fun e he => ?_⟩
  by_cases hb : b = 0 <;> simp [Calculator.divide, hb] at he
  exact he.symm

/-- Claim C6 witness: the theorem applied at `a = 3`, `b = 0`, its
second component discharged on the error the first one produces. -/
theorem divide_zero_checked_first_witness :
    Calculator.divide 3 0 = Except.error "Cannot divide by zero" ∧
    "Cannot divide by zero" = "Cannot divide by zero" :=
  ⟨(divide_zero_checked_first 3 0).1,
   (divide_zero_checked_first 3 0).2 _ (divide_zero_checked_first 3 0).1⟩

/-- Claim C7: the operations accept both integral and fractional
operands with exact arithmetic semantics; in particular
`divide 7 2 = 3.5` (true division), `add 1.5 2.5 = 4`,
`subtract 7.5 2.5 = 5` and `multiply 2.5 4 = 10`. -/
theorem fractional_semantics :
    Calculator.divide 7 2 = Except.ok 3.5 ∧
    Calculator.add 1.5 2.5 = 4 ∧
    Calculator.subtract 7.5 2.5 = 5 ∧
    Calculator.multiply 2.5 4 = 10 := by
  refine ⟨?_, ?_, ?_, ?_⟩ <;>
    · simp only [Calculator.divide, Calculator.add, Calculator.subtract,
        Calculator.multiply]
      norm_num

/-- Claim C8: all five operations are deterministic pure functions:
calls with identical inputs yield identical outputs (or the identical
error). -/
theorem ops_deterministic (n₁ n₂ : String) (a₁ b₁ a₂ b₂ : ℚ)
    (hn : n₁ = n₂) (ha : a₁ = a₂) (hb : b₁ = b₂) :
    hello_world n₁ = hello_world n₂ ∧
    Calculator.add a₁ b₁ = Calculator.add a₂ b₂ ∧
    Calculator.subtract a₁ b₁ = Calculator.subtract a₂ b₂ ∧
    Calculator.multiply a₁ b₁ = Calculator.multiply a₂ b₂ ∧
    Calculator.divide a₁ b₁ = Calculator.divide a₂ b₂ := by
  subst hn ha hb
  exact ⟨rfl, rfl, rfl, rfl, rfl⟩

/-- Claim C8 witness: determinism applied at the concrete inputs
`"Py"`, `a = 1`, `b = 2`. -/
theorem ops_deterministic_witness :
    hello_world "Py" = hello_world "Py" ∧
    Calculator.add 1 2 = Calculator.add 1 2 ∧
    Calculator.subtract 1 2 = Calculator.subtract 1 2 ∧
    Calculator.multiply 1 2 = Calculator.multiply 1 2 ∧
    Calculator.divide 1 2 = Calculator.divide 1 2 :=
  ops_deterministic "Py" "Py" 1 2 1 2 rfl rfl rfl

/-- Claim C9: the divisor guard is numeric equality with zero, so every
divisor numerically equal to zero (`-0` included) raises the
division-by-zero error, and a quotient is only ever returned for a
nonzero divisor. -/
theorem zero_divisor_guard (a b : ℚ) :
    (b = 0 → Calculator.divide a b = Except.error "Cannot divide by zero") ∧
    Calculator.divide a (-0) = Except.error "Cannot divide by zero" ∧
    (∀ q, Calculator.divide a b = Except.ok q → b ≠ 0) := by
  refine ⟨fun hb => by simp [Calculator.divide, hb],
    by simp [Calculator.divide], fun q hq hb => ?_⟩
  simp [Calculator.divide, hb] at hq

/-- Claim C9 witness: the guard theorem applied at `b = 0` and, for the
last component, at `b = 2` with the concrete quotient `1 / 2`. -/
theorem zero_divisor_guard_witness :
    Calculator.divide 1 0 = Except.error "Cannot divide by zero" ∧
    (2 : ℚ) ≠ 0 :=
  ⟨(zero_divisor_guard 1 0).1 rfl,
   (zero_divisor_guard 1 2).2.2 (1 / 2)
     (by simp [Calculator.divide])⟩

/-- Claim C10: on `int` operands, `add`, `subtract` and `multiply`
return the exact `int` result with no coercion, while `divide` always
returns a `float`, even for integer-exact quotients: `divide 6 2` is
the float `3.0`, not the integer `3`. -/
theorem int_float_behaviour (m n : Int) (hn : n ≠ 0) :
    PyCalculator.add (.int m) (.int n) = .int (m + n) ∧
    PyCalculator.subtract (.int m) (.int n) = .int (m - n) ∧
    PyCalculator.multiply (.int m) (.int n) = .int (m * n) ∧
    PyCalculator.divide (.int m) (.int n) =
      Except.ok (.float ((m : ℚ) / n)) ∧
    (∀ a b q, PyCalculator.divide a b = Except.ok q →
      ∃ x : ℚ, q = PyNum.float x) ∧
    PyCalculator.divide (.int 6) (.int 2) = Except.ok (.float 3) ∧
    (PyNum.float 3 : PyNum) ≠ PyNum.int 3 := by
  have hcast : ((n : ℚ)) ≠ 0 := Int.cast_ne_zero.mpr hn
  refine ⟨rfl, rfl, rfl, by simp [PyCalculator.divide, PyNum.val, hcast],
    fun a b q hq => ?_, ?_, by simp⟩
  · by_cases hb : b.val = 0 <;> simp [PyCalculator.divide, hb] at hq
    exact ⟨_, hq.symm⟩
  · simp only [PyCalculator.divide, PyNum.val]
    norm_num

/-- Claim C10 witness: the theorem applied at `m = 6`, `n = 2`. -/
theorem int_float_behaviour_witness :
    PyCalculator.add (.int 6) (.int 2) = .int 8 ∧
    PyCalculator.divide (.int 6) (.int 2) = Except.ok (.float 3) :=
  ⟨(int_float_behaviour 6 2 (by norm_num)).1,
   (int_float_behaviour 6 2 (by norm_num)).2.2.2.2.2.1⟩
